import Mathlib

/-!
# finalbot: the canvas handlers of `App.js`, `Chatbot.js` and `PDFUploadNode.js`

A shallow embedding of the three stateful React components.  Component state is
an explicit record, every handler is a function on that record, and everything a
handler does to the outside world (a `fetch`, an `alert`, a console line, a call
of the upload-success callback) is recorded in a list of `Effect`s.

An `async` handler is split where it awaits the network: the part that runs
before the `await`, and the continuation that runs once the request has settled.
The outcome of the request is an input of the continuation.

JavaScript strings are modelled by `String`; the JSON fields the handlers read
(`detail`, `message`, `session_id`, `answer`) are either absent (`none`) or a
string.
-/

namespace Finalbot

/-! ## Data model -/

/-- An edge of the canvas: `{id, source, target}`. -/
structure Edge where
  id : String
  source : String
  target : String
  deriving DecidableEq, Repr

/-- The argument of `onConnect`: the endpoints of the connection being drawn. -/
structure Connection where
  source : String
  target : String
  sourceHandle : Option String
  targetHandle : Option String
  deriving DecidableEq, Repr

/-- An element of the change list handed to `onEdgesChange`, by its `type`. -/
inductive EdgeChange where
  | add (item : Edge)
  | remove (id : String)
  | replace (id : String) (item : Edge)
  | select (id : String) (selected : Bool)
  deriving DecidableEq, Repr

/-- The body of a request, as handed to `fetch`. -/
inductive Body where
  | processPdfs (session_id : Option String)
  | query (query : String) (useVectorDB : Bool) (useLLM : Bool)
  | formData (files : List String)
  deriving DecidableEq, Repr

/-- A `fetch` call. -/
structure Request where
  url : String
  method : String
  body : Body
  deriving DecidableEq, Repr

/-- The fields of a JSON response body that the handlers read. -/
structure ResponseBody where
  detail : Option String
  message : Option String
  session_id : Option String
  answer : Option String
  deriving DecidableEq, Repr

/-- How a `fetch` settles: the promise rejects with an error carrying `message`
(a transport error), or it resolves to a response with its `ok` flag and the
result of `response.json()`, which is the parsed body or the message of the
parse error it throws. -/
inductive FetchOutcome where
  | threw (message : String)
  | response (ok : Bool) (json : Except String ResponseBody)

/-- An argument of a console call: a string (a value that may be `undefined` is
given by the text the console shows for it), or an `Error` object, given by its
message. -/
inductive LogArg where
  | text (s : String)
  | errorObject (message : String)
  deriving DecidableEq, Repr

/-- What a handler does to the outside world. -/
inductive Effect where
  | fetch (req : Request)
  | alert (text : String)
  | consoleLog (args : List LogArg)
  | consoleError (args : List LogArg)
  | onUploadSuccess (sessionId : String)
  deriving DecidableEq, Repr

/-- JavaScript `a || b` for an optional string and a string default: `undefined`
and the empty string are falsy. -/
def jsOr (a : Option String) (b : String) : String :=
  match a with
  | some s => if s = "" then b else s
  | none => b

/-- JavaScript `a || b` where `b` may itself be `null`. -/
def jsOrOpt (a : Option String) (b : Option String) : Option String :=
  match a with
  | some s => if s = "" then b else some s
  | none => b

/-- The text JavaScript shows for a value that may be `undefined`. -/
def jsToString (a : Option String) : String :=
  match a with
  | some s => s
  | none => "undefined"

/-- The requests issued by a handler, in order. -/
def requestsOf (effs : List Effect) : List Request :=
  effs.filterMap fun e =>
    match e with
    | .fetch r => some r
    | _ => none

/-- The texts shown with `alert`, in order. -/
def alertsOf (effs : List Effect) : List String :=
  effs.filterMap fun e =>
    match e with
    | .alert t => some t
    | _ => none

/-- The session identifiers the upload-success callback was called with. -/
def callbacksOf (effs : List Effect) : List String :=
  effs.filterMap fun e =>
    match e with
    | .onUploadSuccess sid => some sid
    | _ => none

/-! ## `App.js` -/

/-- The state of `App`: `edges`, `isProcessing`, `useLLMState`, `sessionId`. -/
structure AppState where
  edges : List Edge
  isProcessing : Bool
  useLLMState : Bool
  sessionId : Option String
  deriving DecidableEq, Repr

/-- The two functions of the graph library that `App` calls on the edge list.
Their code is not part of the repository, so the handlers take them as a
parameter. -/
structure FlowLib where
  addEdge : Connection → List Edge → List Edge
  applyEdgeChanges : List EdgeChange → List Edge → List Edge

/-- The test of `onConnect` line 39 on the new connection. -/
def connectsPdfVectorDB (params : Connection) : Bool :=
  (params.source == "pdf" && params.target == "vectorDB") ||
    (params.source == "vectorDB" && params.target == "pdf")

/-- The test of `onConnect` line 62 on the new connection. -/
def connectsVectorDBLLM (params : Connection) : Bool :=
  (params.source == "vectorDB" && params.target == "llm") ||
    (params.source == "llm" && params.target == "vectorDB")

/-- The request of `onConnect` lines 42-47. -/
def processPdfsRequest (sessionId : Option String) : Request :=
  { url := "http://localhost:8000/process_pdfs", method := "POST",
    body := .processPdfs sessionId }

/-- `onConnect` up to its `await`: the edge is added, then the connection is
classified.  For a pdf/vectorDB connection the processing flag is raised and
the request is issued; for a vectorDB/llm connection the latch is set. -/
def onConnectStart (L : FlowLib) (params : Connection) (s : AppState) :
    AppState × List Effect :=
  let s1 := { s with edges := L.addEdge params s.edges }
  if connectsPdfVectorDB params then
    ({ s1 with isProcessing := true }, [.fetch (processPdfsRequest s.sessionId)])
  else if connectsVectorDBLLM params then
    ({ s1 with useLLMState := true },
      [.consoleLog [.text "Connected Vector Database to OpenAI LLM"]])
  else
    (s1, [])

/-- The `catch` block of `onConnect`, for an error with the given message. -/
def onConnectCatch (message : String) : List Effect :=
  [.consoleError [.text "Error creating embeddings:", .text message],
    .alert ("Error: " ++ message)]

/-- `onConnect` after its request has settled: the rest of the `try` block, the
`catch` block and the `finally` block.  `sessionId` is the value the handler
closed over when it was called. -/
def onConnectSettle (sessionId : Option String) (o : FetchOutcome) (s : AppState) :
    AppState × List Effect :=
  let r : AppState × List Effect :=
    match o with
    | .threw message => (s, onConnectCatch message)
    | .response false (.error parseMessage) => (s, onConnectCatch parseMessage)
    | .response false (.ok errorData) =>
        (s, onConnectCatch (jsOr errorData.detail "Failed to create embeddings"))
    | .response true (.error parseMessage) => (s, onConnectCatch parseMessage)
    | .response true (.ok result) =>
        ({ s with sessionId := jsOrOpt result.session_id sessionId },
          [.consoleLog [.text (jsToString result.message)],
            .alert (jsToString result.message)])
  ({ r.1 with isProcessing := false }, r.2)

/-- One call of `onConnect` run to completion with nothing else in between:
`net` gives the outcome of the request it issues. -/
def onConnect (L : FlowLib) (net : Request → FetchOutcome) (params : Connection)
    (s : AppState) : AppState × List Effect :=
  let r := onConnectStart L params s
  match requestsOf r.2 with
  | [] => r
  | req :: _ =>
      let r2 := onConnectSettle s.sessionId (net req) r.1
      (r2.1, r.2 ++ r2.2)

/-- The test of lines 77-79 on one edge. -/
def isLLMEdge (edge : Edge) : Bool :=
  (edge.source == "vectorDB" && edge.target == "llm") ||
    (edge.source == "llm" && edge.target == "vectorDB")

/-- The test of lines 85-87 on one edge. -/
def isVectorDBEdge (edge : Edge) : Bool :=
  (edge.source == "pdf" && edge.target == "vectorDB") ||
    (edge.source == "vectorDB" && edge.target == "pdf")

/-- The `reduce` of lines 70-75: a `remove` change filters its id out of the
accumulator, every other change leaves it as it is. -/
def newEdges (changes : List EdgeChange) (edges : List Edge) : List Edge :=
  changes.foldl
    (fun acc change =>
      match change with
      | .remove id => acc.filter (fun edge => edge.id != id)
      | _ => acc)
    edges

/-- `onEdgesChangeHandler`: the library applies the changes to the edge state,
and the latch is overwritten with `hasLLMConnection`. -/
def onEdgesChangeHandler (L : FlowLib) (changes : List EdgeChange) (s : AppState) :
    AppState × List Effect :=
  let hasLLMConnection := (newEdges changes s.edges).any isLLMEdge
  ({ s with edges := L.applyEdgeChanges changes s.edges, useLLMState := hasLLMConnection }, [])

/-- `handleUploadSuccess`: the callback `App` injects into the pdf node. -/
def handleUploadSuccess (newSessionId : String) (s : AppState) : AppState :=
  { s with sessionId := some newSessionId }

/-- The `useVectorDB` of lines 84-88, computed on every render. -/
def useVectorDB (s : AppState) : Bool :=
  s.edges.any isVectorDBEdge

/-- The `useLLM` of line 89. -/
def useLLM (s : AppState) : Bool :=
  s.useLLMState

/-- The props of `Chatbot` that the component reads (line 3). -/
structure ChatbotProps where
  useVectorDB : Bool
  useLLM : Bool
  deriving DecidableEq, Repr

/-- The props `App` passes to `Chatbot` on line 110, as the component
destructures them: `sessionId` is passed too, and not read. -/
def chatbotProps (s : AppState) : ChatbotProps :=
  { useVectorDB := useVectorDB s, useLLM := useLLM s }

/-! ### The specification's view of an edge change -/

/-- The ids removed by a change list. -/
def removedIds (changes : List EdgeChange) : List String :=
  changes.filterMap fun c =>
    match c with
    | .remove id => some id
    | _ => none

/-- The edges added by a change list. -/
def addedItems (changes : List EdgeChange) : List Edge :=
  changes.filterMap fun c =>
    match c with
    | .add item => some item
    | _ => none

/-- The post-change edge set of a change list made of add and remove
operations, in the specification's words: the current edges with every remove
applied by edge id and every add applied.  A `replace` or `select` change is not
an add or a remove and has no part in it. -/
def specPostChangeEdges (changes : List EdgeChange) (edges : List Edge) : List Edge :=
  edges.filter (fun edge => !(removedIds changes).contains edge.id) ++ addedItems changes

/-- An unordered endpoint pair: the edge joins `a` and `b` in either direction. -/
def joins (a b : String) (edge : Edge) : Prop :=
  (edge.source = a ∧ edge.target = b) ∨ (edge.source = b ∧ edge.target = a)

instance (a b : String) (edge : Edge) : Decidable (joins a b edge) := by
  unfold joins; infer_instance

/-- The connection joins `a` and `b`, in either source/target order. -/
def connects (a b : String) (params : Connection) : Prop :=
  (params.source = a ∧ params.target = b) ∨ (params.source = b ∧ params.target = a)

instance (a b : String) (params : Connection) : Decidable (connects a b params) := by
  unfold connects; infer_instance

/-- A change list made of add and remove operations. -/
def addsAndRemoves (changes : List EdgeChange) : Prop :=
  ∀ c ∈ changes, (∃ item, c = .add item) ∨ (∃ id, c = .remove id)

/-- A change list made of removals only. -/
def onlyRemovals (changes : List EdgeChange) : Prop :=
  ∀ c ∈ changes, ∃ id, c = .remove id

/-- Modelled from the spec: the graph library's `addEdge` and
`applyEdgeChanges`, whose code is not in the repository.  "`onConnect`: appends
the edge unconditionally"; "applies list of add/remove operations to the edge
set (remove by edge identity)".  The appended edge takes its id from its
endpoints; only the add and remove changes of a list are applied. -/
def specFlowLib : FlowLib where
  addEdge := fun params eds =>
    eds ++ [{ id := params.source ++ "-" ++ params.target,
              source := params.source, target := params.target }]
  applyEdgeChanges := specPostChangeEdges

/-! ### The event loop around `App` -/

/-- The `App` together with the embedding requests that are in flight.  Each one
is a suspended `onConnect`, kept as the session id that call closed over. -/
structure Sys where
  app : AppState
  inFlight : List (Option String)
  deriving DecidableEq, Repr

/-- The events the `App` reacts to. -/
inductive Event where
  | connect (params : Connection)
  | edgesChange (changes : List EdgeChange)
  | uploadSuccess (newSessionId : String)
  | settle (i : Nat) (o : FetchOutcome)

/-- An event that is the settling of an embedding request. -/
def Event.isSettle : Event → Bool
  | .settle _ _ => true
  | _ => false

/-- One turn of the event loop.  A `connect` runs `onConnect` up to its `await`
and suspends it if it issued a request; `settle i o` resumes the `i`-th
suspended call with outcome `o`. -/
def step (L : FlowLib) (σ : Sys) (ev : Event) : Sys :=
  match ev with
  | .connect params =>
      let r := onConnectStart L params σ.app
      { app := r.1, inFlight := σ.inFlight ++ (requestsOf r.2).map (fun _ => σ.app.sessionId) }
  | .edgesChange changes =>
      { σ with app := (onEdgesChangeHandler L changes σ.app).1 }
  | .uploadSuccess newSessionId =>
      { σ with app := handleUploadSuccess newSessionId σ.app }
  | .settle i o =>
      match σ.inFlight.get? i with
      | none => σ
      | some sid =>
          { app := (onConnectSettle sid o σ.app).1, inFlight := σ.inFlight.eraseIdx i }

/-- A sequence of turns. -/
def run (L : FlowLib) (σ : Sys) (evs : List Event) : Sys :=
  evs.foldl (step L) σ

/-- The `App` as it is mounted: no edges, nothing in flight, `sessionId` null. -/
def initialSys : Sys :=
  { app := { edges := [], isProcessing := false, useLLMState := false, sessionId := none },
    inFlight := [] }

/-! ## `Chatbot.js` -/

/-- An entry of the transcript: `{text, sender}`.  `text` is `none` when the
code stores `undefined` there. -/
structure ChatMessage where
  text : Option String
  sender : String
  deriving DecidableEq, Repr

/-- The state of `Chatbot`: `messages` and `input`. -/
structure ChatState where
  messages : List ChatMessage
  input : String
  deriving DecidableEq, Repr

/-- The code points `String.prototype.trim` strips: WhiteSpace and
LineTerminator of ECMAScript. -/
def isJsWhiteSpace (c : Char) : Bool :=
  [0x9, 0xA, 0xB, 0xC, 0xD, 0x20, 0xA0, 0x1680, 0x2000, 0x2001, 0x2002, 0x2003, 0x2004,
    0x2005, 0x2006, 0x2007, 0x2008, 0x2009, 0x200A, 0x2028, 0x2029, 0x202F, 0x205F, 0x3000,
    0xFEFF].contains c.toNat

/-- `input.trim()`. -/
def jsTrim (s : String) : String :=
  String.mk ((s.data.dropWhile isJsWhiteSpace).reverse.dropWhile isJsWhiteSpace).reverse

/-- Blank in the specification's words: empty, or whitespace only. -/
def whitespaceOnly (s : String) : Prop :=
  ∀ c ∈ s.data, isJsWhiteSpace c = true

instance (s : String) : Decidable (whitespaceOnly s) := by
  unfold whitespaceOnly; infer_instance

/-- The request of `handleSend` lines 24-29. -/
def queryRequest (input : String) (props : ChatbotProps) : Request :=
  { url := "http://localhost:8000/query", method := "POST",
    body := .query input props.useVectorDB props.useLLM }

/-- `handleSend` up to its `await`. -/
def handleSendStart (props : ChatbotProps) (st : ChatState) : ChatState × List Effect :=
  if jsTrim st.input = "" then (st, [])
  else
    let userMessage : ChatMessage := { text := some st.input, sender := "user" }
    let st1 : ChatState := { messages := st.messages ++ [userMessage], input := "" }
    if !props.useLLM then
      ({ st1 with
          messages := st1.messages ++ [{ text := some "Please connect to LLM node", sender := "bot" }] },
        [])
    else
      (st1, [.fetch (queryRequest st.input props)])

/-- The `catch` block of `handleSend`, for an error with the given message. -/
def handleSendCatch (message : String) (st : ChatState) : ChatState × List Effect :=
  ({ st with messages := st.messages ++ [{ text := some ("Error: " ++ message), sender := "bot" }] },
    [.consoleError [.text "Query error:", .errorObject message]])

/-- `handleSend` after its request has settled. -/
def handleSendSettle (o : FetchOutcome) (st : ChatState) : ChatState × List Effect :=
  match o with
  | .threw message => handleSendCatch message st
  | .response false (.error parseMessage) => handleSendCatch parseMessage st
  | .response false (.ok errorData) => handleSendCatch (jsOr errorData.detail "Query failed") st
  | .response true (.error parseMessage) => handleSendCatch parseMessage st
  | .response true (.ok data) =>
      ({ st with messages := st.messages ++ [{ text := data.answer, sender := "bot" }] }, [])

/-- One call of `handleSend` run to completion when no other event of the
component comes between its two halves.  The input field and the Send button
stay enabled while the request is awaited, so other events may come in between:
those runs are the ones of `chatRun` below. -/
def handleSend (net : Request → FetchOutcome) (props : ChatbotProps) (st : ChatState) :
    ChatState × List Effect :=
  let r := handleSendStart props st
  match requestsOf r.2 with
  | [] => r
  | req :: _ =>
      let r2 := handleSendSettle (net req) r.1
      (r2.1, r.2 ++ r2.2)

/-- The text of the error a failed request raises inside a handler's `try`
block, if the request failed: the message of the rejected `fetch`, the message
of the error `response.json()` throws, or for a non-2xx response with a JSON
body its `detail` or else the default of the call. -/
def failureText (default : String) (o : FetchOutcome) : Option String :=
  match o with
  | .threw message => some message
  | .response _ (.error parseMessage) => some parseMessage
  | .response false (.ok errorData) => some (jsOr errorData.detail default)
  | .response true (.ok _) => none

/-! ### The event loop around `Chatbot` -/

/-- The `Chatbot` together with the query requests that are in flight, each a
suspended `handleSend`. -/
structure ChatSys where
  chat : ChatState
  inFlight : List Request
  deriving DecidableEq, Repr

/-- The events the `Chatbot` reacts to: typing into the input field (`onChange`,
line 84), a press of Send or Enter with the props of the current render, and the
settling of the `i`-th request in flight. -/
inductive ChatEvent where
  | setInput (value : String)
  | send (props : ChatbotProps)
  | settle (i : Nat) (o : FetchOutcome)

/-- An event that is typing into the input field. -/
def ChatEvent.isSetInput : ChatEvent → Bool
  | .setInput _ => true
  | _ => false

/-- One turn of the event loop of the `Chatbot`.  A `send` runs `handleSend` up
to its `await` and suspends it if it issued a request; `settle i o` resumes the
`i`-th suspended call with outcome `o`, on the state as it is then. -/
def chatStep (σ : ChatSys) (ev : ChatEvent) : ChatSys :=
  match ev with
  | .setInput value => { σ with chat := { σ.chat with input := value } }
  | .send props =>
      let r := handleSendStart props σ.chat
      { chat := r.1, inFlight := σ.inFlight ++ requestsOf r.2 }
  | .settle i o =>
      match σ.inFlight.get? i with
      | none => σ
      | some _ => { chat := (handleSendSettle o σ.chat).1, inFlight := σ.inFlight.eraseIdx i }

/-- A sequence of turns of the `Chatbot`. -/
def chatRun (σ : ChatSys) (evs : List ChatEvent) : ChatSys :=
  evs.foldl chatStep σ

/-! ## `PDFUploadNode.js` -/

/-- The `data` prop of the pdf node: whether it holds `onUploadSuccess`. -/
structure NodeData where
  onUploadSuccess : Bool
  deriving DecidableEq, Repr

/-- The `data` of the pdf node in `updatedNodes` (lines 33-35 of `App.js`). -/
def pdfNodeData : NodeData :=
  { onUploadSuccess := true }

/-- The state of `PDFUploadNode`: `files` (by name) and `uploading`. -/
structure UploadState where
  files : List String
  uploading : Bool
  deriving DecidableEq, Repr

/-- The request of `handleUpload` lines 22-26. -/
def uploadRequest (files : List String) : Request :=
  { url := "http://localhost:8000/upload_pdfs", method := "POST", body := .formData files }

/-- `handleUpload` up to its `await`. -/
def handleUploadStart (st : UploadState) : UploadState × List Effect :=
  if st.files.length = 0 then
    (st, [.alert "Please select at least one PDF file"])
  else
    ({ st with uploading := true }, [.fetch (uploadRequest st.files)])

/-- The `catch` block of `handleUpload`, for an error with the given message. -/
def handleUploadCatch (message : String) : List Effect :=
  [.consoleError [.text "Upload error:", .text message],
    .alert ("Failed to upload PDFs: " ++ message)]

/-- `handleUpload` after its request has settled.  `response.json()` is awaited
before `response.ok` is looked at. -/
def handleUploadSettle (data : NodeData) (o : FetchOutcome) (st : UploadState) :
    UploadState × List Effect :=
  let r : UploadState × List Effect :=
    match o with
    | .threw message => (st, handleUploadCatch message)
    | .response _ (.error parseMessage) => (st, handleUploadCatch parseMessage)
    | .response false (.ok result) => (st, handleUploadCatch (jsOr result.detail "Upload failed"))
    | .response true (.ok result) =>
        ({ st with files := [] },
          [.alert (jsToString result.message),
            .consoleLog [.text "Upload successful:", .text (jsToString result.message)]] ++
          (match result.session_id with
            | some sid => if data.onUploadSuccess && sid != "" then [.onUploadSuccess sid] else []
            | none => []))
  ({ r.1 with uploading := false }, r.2)

/-- One call of `handleUpload` run to completion with nothing else in between. -/
def handleUpload (net : Request → FetchOutcome) (data : NodeData) (st : UploadState) :
    UploadState × List Effect :=
  let r := handleUploadStart st
  match requestsOf r.2 with
  | [] => r
  | req :: _ =>
      let r2 := handleUploadSettle data (net req) r.1
      (r2.1, r.2 ++ r2.2)

/-- The `App` state after the callback calls recorded in `effs`. -/
def afterCallbacks (effs : List Effect) (s : AppState) : AppState :=
  (callbacksOf effs).foldl (fun acc sid => handleUploadSuccess sid acc) s

/-- The upload succeeded: a 2xx response whose body parsed. -/
def uploadSucceeded (o : FetchOutcome) : Prop :=
  ∃ result, o = .response true (.ok result)

/-- The upload succeeded with the success body of the interface, `{message,
session_id}`: a 2xx response whose body parsed and holds the session identifier
`sid`, an identifier being a non-empty string. -/
def uploadSucceededWith (sid : String) (o : FetchOutcome) : Prop :=
  ∃ result, o = .response true (.ok result) ∧ result.session_id = some sid ∧ sid ≠ ""

/-! ## The specification's view of requests and failures -/

/-- The session identifier a request carries in its body, if its body has a
`session_id` field at all. -/
def sessionIdOf (req : Request) : Option (Option String) :=
  match req.body with
  | .processPdfs sid => some sid
  | .query _ _ _ => none
  | .formData _ => none

/-- The failure text in the specification's words: the `detail` field of the
response if it is present, and otherwise the default of the call. -/
def specFailureText (default : String) (o : FetchOutcome) : String :=
  match o with
  | .response _ (.ok body) => body.detail.getD default
  | _ => default

/-! ## Lemmas on the edge tests -/

theorem isLLMEdge_iff (edge : Edge) : isLLMEdge edge = true ↔ joins "vectorDB" "llm" edge := by
  simp [isLLMEdge, joins]

theorem isVectorDBEdge_iff (edge : Edge) :
    isVectorDBEdge edge = true ↔ joins "pdf" "vectorDB" edge := by
  simp [isVectorDBEdge, joins]

theorem connectsPdfVectorDB_of_llm (params : Connection)
    (h : (params.source = "vectorDB" ∧ params.target = "llm") ∨
      (params.source = "llm" ∧ params.target = "vectorDB")) :
    connectsPdfVectorDB params = false ∧ connectsVectorDBLLM params = true := by
  rcases h with ⟨h1, h2⟩ | ⟨h1, h2⟩ <;> simp [connectsPdfVectorDB, connectsVectorDBLLM, h1, h2]

/-- The `reduce` of the handler keeps the edges whose id no `remove` names. -/
theorem newEdges_eq_filter (changes : List EdgeChange) (edges : List Edge) :
    newEdges changes edges =
      edges.filter (fun edge => !(removedIds changes).contains edge.id) := by
  induction changes generalizing edges with
  | nil => simp [newEdges, removedIds]
  | cons c cs ih =>
    have hstep : newEdges (c :: cs) edges =
        newEdges cs (match c with
          | .remove id => edges.filter (fun edge => edge.id != id)
          | _ => edges) := by
      cases c <;> simp [newEdges]
    rw [hstep]
    cases c with
    | remove id =>
      simp only [ih, List.filter_filter, removedIds, List.filterMap_cons]
      apply List.filter_congr
      intro e _
      by_cases h : e.id = id <;> simp [h]
    | add item => simp [ih, removedIds]
    | replace id item => simp [ih, removedIds]
    | select id b => simp [ih, removedIds]

theorem latch_iff_unremoved (L : FlowLib) (changes : List EdgeChange) (s : AppState) :
    (onEdgesChangeHandler L changes s).1.useLLMState = true ↔
      ∃ e ∈ s.edges, e.id ∉ removedIds changes ∧ joins "vectorDB" "llm" e := by
  simp only [onEdgesChangeHandler, newEdges_eq_filter, List.any_eq_true, List.mem_filter,
    isLLMEdge_iff]
  constructor
  · rintro ⟨e, ⟨he, hid⟩, hj⟩
    exact ⟨e, he, by simpa using hid, hj⟩
  · rintro ⟨e, he, hid, hj⟩
    exact ⟨e, ⟨he, by simpa using hid⟩, hj⟩

theorem addedItems_of_onlyRemovals (changes : List EdgeChange) (h : onlyRemovals changes) :
    addedItems changes = [] := by
  induction changes with
  | nil => rfl
  | cons c cs ih =>
    obtain ⟨id, rfl⟩ := h c (List.mem_cons_self _ _)
    have := ih (fun c hc => h c (List.mem_cons_of_mem _ hc))
    simpa [addedItems] using this

/-! ## C1 -/

/-- C1: the `useLLM` latch follows the vectorDB/llm pairing in either direction.
For every edge list and every connection joining `vectorDB` and `llm` in either
source/target order, the latch is true after `onConnect` and no request is
issued; for every edge list and every change list of removals after which no
edge joining `vectorDB` and `llm` remains, the latch is false after
`onEdgesChangeHandler`, which issues no request either. -/
theorem useLLM_latch_follows_pairing (L : FlowLib) (s : AppState) :
    (∀ (net : Request → FetchOutcome) (params : Connection),
      ((params.source = "vectorDB" ∧ params.target = "llm") ∨
        (params.source = "llm" ∧ params.target = "vectorDB")) →
      (onConnect L net params s).1.useLLMState = true ∧
        requestsOf (onConnect L net params s).2 = []) ∧
    (∀ changes : List EdgeChange, onlyRemovals changes →
      (∀ e ∈ specPostChangeEdges changes s.edges, ¬ joins "vectorDB" "llm" e) →
      (onEdgesChangeHandler L changes s).1.useLLMState = false ∧
        requestsOf (onEdgesChangeHandler L changes s).2 = []) := by
  refine ⟨?_, ?_⟩
  · intro net params h
    obtain ⟨h1, h2⟩ := connectsPdfVectorDB_of_llm params h
    simp [onConnect, onConnectStart, h1, h2, requestsOf]
  · intro changes hrem hnone
    refine ⟨?_, by simp [onEdgesChangeHandler, requestsOf]⟩
    rw [← Bool.not_eq_true, latch_iff_unremoved]
    rintro ⟨e, he, hid, hj⟩
    refine hnone e ?_ hj
    simp only [specPostChangeEdges, List.mem_append, List.mem_filter]
    exact Or.inl ⟨he, by simpa using hid⟩

/-- An instance of C1: `onConnect` of `llm → vectorDB` on the empty canvas, and
the removal of the only edge `e1 : vectorDB → llm`. -/
theorem useLLM_latch_follows_pairing_witness :
    ((onConnect specFlowLib (fun _ => .threw "") ⟨"llm", "vectorDB", none, none⟩
        initialSys.app).1.useLLMState = true ∧
      requestsOf (onConnect specFlowLib (fun _ => .threw "") ⟨"llm", "vectorDB", none, none⟩
        initialSys.app).2 = []) ∧
    ((onEdgesChangeHandler specFlowLib [.remove "e1"]
        { edges := [⟨"e1", "vectorDB", "llm"⟩], isProcessing := false, useLLMState := true,
          sessionId := none }).1.useLLMState = false ∧
      requestsOf (onEdgesChangeHandler specFlowLib [.remove "e1"]
        { edges := [⟨"e1", "vectorDB", "llm"⟩], isProcessing := false, useLLMState := true,
          sessionId := none }).2 = []) :=
  ⟨(useLLM_latch_follows_pairing specFlowLib initialSys.app).1 (fun _ => .threw "")
      ⟨"llm", "vectorDB", none, none⟩ (Or.inr ⟨rfl, rfl⟩),
    (useLLM_latch_follows_pairing specFlowLib
      { edges := [⟨"e1", "vectorDB", "llm"⟩], isProcessing := false, useLLMState := true,
        sessionId := none }).2 [.remove "e1"]
      (by intro c hc; exact ⟨"e1", by simpa using hc⟩)
      (by decide)⟩

/-! ## C2 -/

/-- C2 fails as stated: on the empty canvas, the change list that adds the edge
`e1 : vectorDB → llm` leaves the latch false, while the post-change edge set
contains that edge. -/
theorem latch_ignores_added_edge :
    (onEdgesChangeHandler specFlowLib [.add ⟨"e1", "vectorDB", "llm"⟩] initialSys.app).1.useLLMState
        = false ∧
      (∃ e ∈ specPostChangeEdges [.add ⟨"e1", "vectorDB", "llm"⟩] initialSys.app.edges,
        joins "vectorDB" "llm" e) ∧
      (onEdgesChangeHandler specFlowLib [.add ⟨"e1", "vectorDB", "llm"⟩] initialSys.app).1.edges
        = [⟨"e1", "vectorDB", "llm"⟩] := by
  decide

/-- C2, amended: for every current edge list and every change list made of add
and remove operations, after `onEdgesChangeHandler` the latch is true exactly
when the current edges with every remove applied by edge id contain an edge
joining `vectorDB` and `llm` in either order; the adds of the list are not
applied.  So the latch is the test on the post-change edge set whenever no added
edge joins `vectorDB` and `llm`. -/
theorem latch_recomputed_from_removals (L : FlowLib) (changes : List EdgeChange)
    (s : AppState) :
    addsAndRemoves changes →
      ((onEdgesChangeHandler L changes s).1.useLLMState = true ↔
        ∃ e ∈ s.edges, e.id ∉ removedIds changes ∧ joins "vectorDB" "llm" e) ∧
      ((∀ e ∈ addedItems changes, ¬ joins "vectorDB" "llm" e) →
        ((onEdgesChangeHandler L changes s).1.useLLMState = true ↔
          ∃ e ∈ specPostChangeEdges changes s.edges, joins "vectorDB" "llm" e)) := by
  intro _
  refine ⟨latch_iff_unremoved L changes s, fun hadd => ?_⟩
  rw [latch_iff_unremoved]
  simp only [specPostChangeEdges, List.mem_append, List.mem_filter]
  constructor
  · rintro ⟨e, he, hid, hj⟩
    exact ⟨e, Or.inl ⟨he, by simpa using hid⟩, hj⟩
  · rintro ⟨e, ⟨he, hid⟩ | he, hj⟩
    · exact ⟨e, he, by simpa using hid, hj⟩
    · exact absurd hj (hadd e he)

/-- An instance of the amended C2: removing `e1` while adding `e2 : pdf →
vectorDB` to the canvas `[e1 : vectorDB → llm, e3 : llm → vectorDB]` keeps the
latch true, as `e3` is in the post-change edge set. -/
theorem latch_recomputed_from_removals_witness :
    (onEdgesChangeHandler specFlowLib [.remove "e1", .add ⟨"e2", "pdf", "vectorDB"⟩]
        { edges := [⟨"e1", "vectorDB", "llm"⟩, ⟨"e3", "llm", "vectorDB"⟩], isProcessing := false,
          useLLMState := false, sessionId := none }).1.useLLMState = true ↔
      ∃ e ∈ specPostChangeEdges [.remove "e1", .add ⟨"e2", "pdf", "vectorDB"⟩]
          [⟨"e1", "vectorDB", "llm"⟩, ⟨"e3", "llm", "vectorDB"⟩],
        joins "vectorDB" "llm" e :=
  (latch_recomputed_from_removals specFlowLib [.remove "e1", .add ⟨"e2", "pdf", "vectorDB"⟩]
    { edges := [⟨"e1", "vectorDB", "llm"⟩, ⟨"e3", "llm", "vectorDB"⟩], isProcessing := false,
      useLLMState := false, sessionId := none }
    (by
      intro c hc
      simp only [List.mem_cons, List.mem_singleton, List.not_mem_nil, or_false] at hc
      rcases hc with rfl | rfl
      · exact Or.inr ⟨_, rfl⟩
      · exact Or.inl ⟨_, rfl⟩)).2 (by decide)

/-! ## C3 -/

/-- C3: the `useVectorDB` flag passed to the `Chatbot` is true exactly when some
edge of the current edge list joins `pdf` and `vectorDB` in either order, and it
is the same for any two `App` states with the same edge list, whatever their
latch, session id and processing flag. -/
theorem useVectorDB_from_edges_alone (s : AppState) :
    ((chatbotProps s).useVectorDB = true ↔ ∃ e ∈ s.edges, joins "pdf" "vectorDB" e) ∧
    (∀ (isProcessing useLLMState : Bool) (sessionId : Option String),
      (chatbotProps ⟨s.edges, isProcessing, useLLMState, sessionId⟩).useVectorDB =
        (chatbotProps s).useVectorDB) ∧
    (∀ e ∈ s.edges, joins "pdf" "vectorDB" e → ∀ more : List Edge,
      (chatbotProps { s with edges := s.edges ++ more }).useVectorDB = true) := by
  refine ⟨?_, ?_, ?_⟩
  · simp [chatbotProps, useVectorDB, List.any_eq_true, isVectorDBEdge_iff]
  · intro _ _ _
    rfl
  · intro e he hj more
    simp only [chatbotProps, useVectorDB, List.any_eq_true, isVectorDBEdge_iff]
    exact ⟨e, List.mem_append_left _ he, hj⟩

/-- An instance of C3: with the single edge `vectorDB → pdf` the flag is true,
and stays true when a second such edge is drawn. -/
theorem useVectorDB_from_edges_alone_witness :
    (chatbotProps ⟨[⟨"e1", "vectorDB", "pdf"⟩] ++ [⟨"e2", "pdf", "vectorDB"⟩], false, false,
      none⟩).useVectorDB = true :=
  (useVectorDB_from_edges_alone ⟨[⟨"e1", "vectorDB", "pdf"⟩], false, false, none⟩).2.2
    ⟨"e1", "vectorDB", "pdf"⟩
    (by simp) (by decide) [⟨"e2", "pdf", "vectorDB"⟩]

/-! ## Lemmas on `trim` -/

theorem dropWhile_eq_nil_of_all {α : Type} (p : α → Bool) (l : List α)
    (h : ∀ x ∈ l.dropWhile p, p x = true) : l.dropWhile p = [] := by
  induction l with
  | nil => rfl
  | cons a as ih =>
    by_cases ha : p a = true
    · simp only [List.dropWhile_cons, ha, if_true] at h ⊢
      exact ih h
    · simp only [List.dropWhile_cons, ha] at h
      exact absurd (h a (by simp)) ha

/-- `input.trim()` is the empty string exactly for a blank input. -/
theorem jsTrim_eq_empty_iff (s : String) : jsTrim s = "" ↔ whitespaceOnly s := by
  have hmk : ∀ l : List Char, String.mk l = "" ↔ l = [] := by
    intro l
    constructor
    · intro h
      have := congrArg String.data h
      simpa using this
    · rintro rfl
      rfl
  unfold jsTrim whitespaceOnly
  rw [hmk, List.reverse_eq_nil_iff, List.dropWhile_eq_nil_iff]
  constructor
  · intro h
    have h2 : s.data.dropWhile isJsWhiteSpace = [] :=
      dropWhile_eq_nil_of_all _ _ (fun x hx => h x (List.mem_reverse.mpr hx))
    exact List.dropWhile_eq_nil_iff.mp h2
  · intro h x hx
    have hx2 : x ∈ s.data.dropWhile isJsWhiteSpace := List.mem_reverse.mp hx
    exact h x ((List.dropWhile_sublist _).subset hx2)

/-! ## C4 -/

/-- C4: for every transcript and every input that is not blank, `handleSend`
with `useLLM` false leaves exactly the old transcript followed by the user
message with the input and the bot message `Please connect to LLM node`, clears
the input, and issues no request (it has no effect on the outside at all). -/
theorem send_without_llm_appends_two (net : Request → FetchOutcome) (props : ChatbotProps)
    (st : ChatState) (hinput : ¬ whitespaceOnly st.input) (hllm : props.useLLM = false) :
    (handleSend net props st).1.messages =
        st.messages ++ [⟨some st.input, "user"⟩, ⟨some "Please connect to LLM node", "bot"⟩] ∧
      (handleSend net props st).1.input = "" ∧
      (handleSend net props st).2 = [] ∧
      requestsOf (handleSend net props st).2 = [] := by
  have ht : ¬ jsTrim st.input = "" := fun h => hinput ((jsTrim_eq_empty_iff _).mp h)
  simp [handleSend, handleSendStart, ht, hllm, requestsOf]

/-- An instance of C4: `hello` sent to an empty transcript without the latch. -/
theorem send_without_llm_appends_two_witness :
    (handleSend (fun _ => .threw "") ⟨true, false⟩ ⟨[], "hello"⟩).1.messages =
        [] ++ [⟨some "hello", "user"⟩, ⟨some "Please connect to LLM node", "bot"⟩] ∧
      (handleSend (fun _ => .threw "") ⟨true, false⟩ ⟨[], "hello"⟩).1.input = "" ∧
      (handleSend (fun _ => .threw "") ⟨true, false⟩ ⟨[], "hello"⟩).2 = [] ∧
      requestsOf (handleSend (fun _ => .threw "") ⟨true, false⟩ ⟨[], "hello"⟩).2 = [] :=
  send_without_llm_appends_two (fun _ => .threw "") ⟨true, false⟩ ⟨[], "hello"⟩
    (by decide) rfl

/-! ## Lemmas on the two halves of `handleSend` -/

theorem requestsOf_handleSendSettle (o : FetchOutcome) (st : ChatState) :
    requestsOf (handleSendSettle o st).2 = [] := by
  rcases o with m | ⟨ok, (m | body)⟩
  · simp [handleSendSettle, handleSendCatch, requestsOf]
  · cases ok <;> simp [handleSendSettle, handleSendCatch, requestsOf]
  · cases ok <;> simp [handleSendSettle, handleSendCatch, requestsOf]

/-- The continuation of `handleSend` appends one bot message to the transcript
it finds and leaves the input field alone. -/
theorem handleSendSettle_appends (o : FetchOutcome) (st : ChatState) :
    (handleSendSettle o st).1.input = st.input ∧
      (∀ data : ResponseBody, o = .response true (.ok data) →
        (handleSendSettle o st).1.messages = st.messages ++ [⟨data.answer, "bot"⟩]) ∧
      (∀ text : String, failureText "Query failed" o = some text →
        (handleSendSettle o st).1.messages =
          st.messages ++ [⟨some ("Error: " ++ text), "bot"⟩]) ∧
      ((∃ data : ResponseBody, o = .response true (.ok data)) ∨
        (∃ text : String, failureText "Query failed" o = some text)) := by
  rcases o with m | ⟨ok, (m | body)⟩
  · simp [handleSendSettle, handleSendCatch, failureText]
  · cases ok <;> simp [handleSendSettle, handleSendCatch, failureText]
  · cases ok <;> simp [handleSendSettle, handleSendCatch, failureText]

theorem handleSendStart_of_llm (props : ChatbotProps) (st : ChatState)
    (hinput : ¬ whitespaceOnly st.input) (hllm : props.useLLM = true) :
    handleSendStart props st =
      (⟨st.messages ++ [⟨some st.input, "user"⟩], ""⟩,
        [.fetch ⟨"http://localhost:8000/query", "POST",
          .query st.input props.useVectorDB true⟩]) := by
  have ht : ¬ jsTrim st.input = "" := fun h => hinput ((jsTrim_eq_empty_iff _).mp h)
  simp [handleSendStart, ht, hllm, queryRequest]

/-- The transcript is append-only: a turn keeps what is there. -/
theorem chatStep_messages_append (σ : ChatSys) (ev : ChatEvent) :
    ∃ rest, (chatStep σ ev).chat.messages = σ.chat.messages ++ rest := by
  cases ev with
  | setInput value => exact ⟨[], by simp [chatStep]⟩
  | send props =>
    by_cases ht : jsTrim σ.chat.input = ""
    · exact ⟨[], by simp [chatStep, handleSendStart, ht]⟩
    · by_cases hl : props.useLLM = true
      · exact ⟨[⟨some σ.chat.input, "user"⟩], by simp [chatStep, handleSendStart, ht, hl]⟩
      · exact ⟨[⟨some σ.chat.input, "user"⟩, ⟨some "Please connect to LLM node", "bot"⟩],
          by simp [chatStep, handleSendStart, ht, hl]⟩
  | settle i o =>
    rcases hi : σ.inFlight[i]? with _ | r
    · exact ⟨[], by simp [chatStep, hi]⟩
    · have hstep : (chatStep σ (.settle i o)).chat = (handleSendSettle o σ.chat).1 := by
        simp [chatStep, hi]
      rw [hstep]
      obtain ⟨_, hok, hfail, hcases⟩ := handleSendSettle_appends o σ.chat
      rcases hcases with ⟨data, hd⟩ | ⟨text, ht⟩
      · exact ⟨_, hok data hd⟩
      · exact ⟨_, hfail text ht⟩

theorem chatRun_messages_append (evs : List ChatEvent) (σ : ChatSys) :
    ∃ rest, (chatRun σ evs).chat.messages = σ.chat.messages ++ rest := by
  induction evs generalizing σ with
  | nil => exact ⟨[], by simp [chatRun]⟩
  | cons ev evs ih =>
    obtain ⟨r1, h1⟩ := chatStep_messages_append σ ev
    obtain ⟨r2, h2⟩ := ih (chatStep σ ev)
    refine ⟨r1 ++ r2, ?_⟩
    have : chatRun σ (ev :: evs) = chatRun (chatStep σ ev) evs := by simp [chatRun]
    rw [this, h2, h1, List.append_assoc]

/-- Typing changes neither the transcript nor the requests in flight. -/
theorem chatRun_of_setInput (evs : List ChatEvent) (σ : ChatSys)
    (h : ∀ ev ∈ evs, ev.isSetInput = true) :
    (chatRun σ evs).chat.messages = σ.chat.messages ∧ (chatRun σ evs).inFlight = σ.inFlight := by
  induction evs generalizing σ with
  | nil => simp [chatRun]
  | cons ev evs ih =>
    have hrun : chatRun σ (ev :: evs) = chatRun (chatStep σ ev) evs := by simp [chatRun]
    have hev := h ev (List.mem_cons_self _ _)
    have htail := ih (chatStep σ ev) (fun e he => h e (List.mem_cons_of_mem _ he))
    cases ev with
    | setInput value =>
      rw [hrun, htail.1, htail.2]
      simp [chatStep]
    | send props => simp [ChatEvent.isSetInput] at hev
    | settle i o => simp [ChatEvent.isSetInput] at hev

/-! ## C5 -/

/-- C5 fails as stated: with the latch set, `a` is sent, then `b` is typed and
sent while the first request is in flight, then the first request is answered
with `A`.  The transcript is user `a`, user `b`, bot `A`, which is not the old
(empty) transcript followed by user `a` and one bot message; the second request
is still in flight. -/
theorem second_send_lands_before_reply :
    (chatRun ⟨⟨[], "a"⟩, []⟩
        [.send ⟨true, true⟩, .setInput "b", .send ⟨true, true⟩,
          .settle 0 (.response true (.ok ⟨none, none, none, some "A"⟩))]).chat.messages =
      [⟨some "a", "user"⟩, ⟨some "b", "user"⟩, ⟨some "A", "bot"⟩] ∧
    (chatRun ⟨⟨[], "a"⟩, []⟩
        [.send ⟨true, true⟩, .setInput "b", .send ⟨true, true⟩,
          .settle 0 (.response true (.ok ⟨none, none, none, some "A"⟩))]).chat.messages ≠
      [] ++ [⟨some "a", "user"⟩, ⟨some "A", "bot"⟩] ∧
    (chatRun ⟨⟨[], "a"⟩, []⟩
        [.send ⟨true, true⟩, .setInput "b", .send ⟨true, true⟩,
          .settle 0 (.response true (.ok ⟨none, none, none, some "A"⟩))]).inFlight =
      [⟨"http://localhost:8000/query", "POST", .query "b" true true⟩] := by
  decide

/-- C5, amended: for every transcript, every input that is not blank and every
value of `useVectorDB`, `handleSend` with `useLLM` true issues exactly one
request, the POST to `/query` with body `{query: input, useVectorDB, useLLM:
true}` where the input is not trimmed, appends the user message with the raw
input to the transcript and clears the input.  Whatever happens next, the
transcript keeps the old transcript and that user message as its beginning.
When a query request settles, exactly one bot message is appended to the
transcript as it is then, and no request is issued: the answer of the response
on success, `Error: ` followed by the failure text otherwise, every outcome
being one of the two.  When nothing but typing happens between the send and the
settling of its request, the transcript is the old one, the user message and
that bot message. -/
theorem send_with_llm_request_and_reply (props : ChatbotProps) (σ : ChatSys)
    (hinput : ¬ whitespaceOnly σ.chat.input) (hllm : props.useLLM = true) :
    (requestsOf (handleSendStart props σ.chat).2 =
        [⟨"http://localhost:8000/query", "POST", .query σ.chat.input props.useVectorDB true⟩] ∧
      (chatStep σ (.send props)).chat =
        ⟨σ.chat.messages ++ [⟨some σ.chat.input, "user"⟩], ""⟩ ∧
      (chatStep σ (.send props)).inFlight =
        σ.inFlight ++
          [⟨"http://localhost:8000/query", "POST", .query σ.chat.input props.useVectorDB true⟩]) ∧
    (∀ evs : List ChatEvent, ∃ rest,
      (chatRun (chatStep σ (.send props)) evs).chat.messages =
        σ.chat.messages ++ [⟨some σ.chat.input, "user"⟩] ++ rest) ∧
    (∀ (τ : ChatSys) (i : Nat) (r : Request) (o : FetchOutcome), τ.inFlight.get? i = some r →
      requestsOf (handleSendSettle o τ.chat).2 = [] ∧
        (chatStep τ (.settle i o)).inFlight = τ.inFlight.eraseIdx i ∧
        (chatStep τ (.settle i o)).chat.input = τ.chat.input ∧
        (∀ data : ResponseBody, o = .response true (.ok data) →
          (chatStep τ (.settle i o)).chat.messages =
            τ.chat.messages ++ [⟨data.answer, "bot"⟩]) ∧
        (∀ text : String, failureText "Query failed" o = some text →
          (chatStep τ (.settle i o)).chat.messages =
            τ.chat.messages ++ [⟨some ("Error: " ++ text), "bot"⟩]) ∧
        ((∃ data : ResponseBody, o = .response true (.ok data)) ∨
          (∃ text : String, failureText "Query failed" o = some text))) ∧
    (∀ (evs : List ChatEvent) (o : FetchOutcome), (∀ ev ∈ evs, ev.isSetInput = true) →
      (∀ data : ResponseBody, o = .response true (.ok data) →
        (chatStep (chatRun (chatStep σ (.send props)) evs)
            (.settle σ.inFlight.length o)).chat.messages =
          σ.chat.messages ++ [⟨some σ.chat.input, "user"⟩, ⟨data.answer, "bot"⟩]) ∧
      (∀ text : String, failureText "Query failed" o = some text →
        (chatStep (chatRun (chatStep σ (.send props)) evs)
            (.settle σ.inFlight.length o)).chat.messages =
          σ.chat.messages ++ [⟨some σ.chat.input, "user"⟩, ⟨some ("Error: " ++ text), "bot"⟩])) := by
  have hstart := handleSendStart_of_llm props σ.chat hinput hllm
  have hsend : chatStep σ (.send props) =
      ⟨⟨σ.chat.messages ++ [⟨some σ.chat.input, "user"⟩], ""⟩,
        σ.inFlight ++
          [⟨"http://localhost:8000/query", "POST",
            .query σ.chat.input props.useVectorDB true⟩]⟩ := by
    simp [chatStep, hstart, requestsOf]
  have hsettle : ∀ (τ : ChatSys) (i : Nat) (r : Request) (o : FetchOutcome),
      τ.inFlight.get? i = some r →
      chatStep τ (.settle i o) = ⟨(handleSendSettle o τ.chat).1, τ.inFlight.eraseIdx i⟩ := by
    intro τ i r o hi
    have hi2 : τ.inFlight[i]? = some r := by simpa using hi
    simp [chatStep, hi2]
  refine ⟨⟨by simp [hstart, requestsOf], by rw [hsend], by rw [hsend]⟩, fun evs => ?_,
    fun τ i r o hi => ?_, fun evs o hevs => ?_⟩
  · obtain ⟨rest, h⟩ := chatRun_messages_append evs (chatStep σ (.send props))
    exact ⟨rest, by rw [h, hsend]⟩
  · rw [hsettle τ i r o hi]
    have h := handleSendSettle_appends o τ.chat
    exact ⟨requestsOf_handleSendSettle o τ.chat, rfl, h.1, h.2.1, h.2.2.1, h.2.2.2⟩
  · obtain ⟨hm, hf⟩ := chatRun_of_setInput evs (chatStep σ (.send props)) hevs
    have hi : (chatRun (chatStep σ (.send props)) evs).inFlight.get? σ.inFlight.length =
        some ⟨"http://localhost:8000/query", "POST",
          .query σ.chat.input props.useVectorDB true⟩ := by
      rw [hf, hsend]
      simp
    rw [hsettle _ _ _ o hi]
    have h := handleSendSettle_appends o (chatRun (chatStep σ (.send props)) evs).chat
    have hmsg : (chatRun (chatStep σ (.send props)) evs).chat.messages =
        σ.chat.messages ++ [⟨some σ.chat.input, "user"⟩] := by
      rw [hm, hsend]
    refine ⟨fun data hd => ?_, fun text ht => ?_⟩
    · rw [h.2.1 data hd, hmsg]
      simp
    · rw [h.2.2.1 text ht, hmsg]
      simp

/-- An instance of the amended C5: the scenario of the specification, `hello`
sent with both flags true and answered with `hi` while nothing else happens. -/
theorem send_with_llm_request_and_reply_witness :
    requestsOf (handleSendStart ⟨true, true⟩ (⟨⟨[], "hello"⟩, []⟩ : ChatSys).chat).2 =
      [⟨"http://localhost:8000/query", "POST", .query "hello" true true⟩] ∧
    (chatStep (chatRun (chatStep ⟨⟨[], "hello"⟩, []⟩ (.send ⟨true, true⟩)) [])
        (.settle 0 (.response true (.ok ⟨none, none, none, some "hi"⟩)))).chat.messages =
      [] ++ [⟨some "hello", "user"⟩, ⟨some "hi", "bot"⟩] :=
  ⟨(send_with_llm_request_and_reply ⟨true, true⟩ ⟨⟨[], "hello"⟩, []⟩ (by decide) rfl).1.1,
    ((send_with_llm_request_and_reply ⟨true, true⟩ ⟨⟨[], "hello"⟩, []⟩ (by decide) rfl).2.2.2
      [] (.response true (.ok ⟨none, none, none, some "hi"⟩))
      (by intro ev hev; cases hev)).1 ⟨none, none, none, some "hi"⟩ rfl⟩

/-! ## C6 -/

/-- C6: for every transcript and every input that is empty or whitespace only,
`handleSend` does nothing: the transcript and the input field are as before and
no request is issued, whatever `useLLM` and `useVectorDB` are. -/
theorem blank_send_is_noop (net : Request → FetchOutcome) (props : ChatbotProps)
    (st : ChatState) (hinput : whitespaceOnly st.input) :
    (handleSend net props st).1 = st ∧ (handleSend net props st).2 = [] ∧
      requestsOf (handleSend net props st).2 = [] := by
  have ht : jsTrim st.input = "" := (jsTrim_eq_empty_iff _).mpr hinput
  simp [handleSend, handleSendStart, ht, requestsOf]

/-- An instance of C6: an input of a space, a tab and a no-break space. -/
theorem blank_send_is_noop_witness :
    (handleSend (fun _ => .threw "") ⟨true, true⟩ ⟨[⟨some "a", "user"⟩], " \t\u00a0"⟩).1 =
        ⟨[⟨some "a", "user"⟩], " \t\u00a0"⟩ ∧
      (handleSend (fun _ => .threw "") ⟨true, true⟩ ⟨[⟨some "a", "user"⟩], " \t\u00a0"⟩).2 = [] ∧
      requestsOf
        (handleSend (fun _ => .threw "") ⟨true, true⟩ ⟨[⟨some "a", "user"⟩], " \t\u00a0"⟩).2 = [] :=
  blank_send_is_noop (fun _ => .threw "") ⟨true, true⟩ ⟨[⟨some "a", "user"⟩], " \t\u00a0"⟩
    (by decide)

/-! ## Lemmas on requests and on the processing flag -/

theorem requestsOf_append (a b : List Effect) :
    requestsOf (a ++ b) = requestsOf a ++ requestsOf b := by
  simp [requestsOf, List.filterMap_append]

theorem requestsOf_onConnectSettle (sid : Option String) (o : FetchOutcome) (s : AppState) :
    requestsOf (onConnectSettle sid o s).2 = [] := by
  rcases o with m | ⟨ok, (m | body)⟩
  · simp [onConnectSettle, onConnectCatch, requestsOf]
  · cases ok <;> simp [onConnectSettle, onConnectCatch, requestsOf]
  · cases ok <;> simp [onConnectSettle, onConnectCatch, requestsOf]

theorem connectsPdfVectorDB_iff (params : Connection) :
    connectsPdfVectorDB params = true ↔ connects "pdf" "vectorDB" params := by
  simp [connectsPdfVectorDB, connects]

theorem isProcessing_onConnectSettle (sid : Option String) (o : FetchOutcome) (s : AppState) :
    (onConnectSettle sid o s).1.isProcessing = false := by
  simp [onConnectSettle]

theorem onConnectStart_of_pdfVectorDB (L : FlowLib) (params : Connection) (s : AppState)
    (h1 : connectsPdfVectorDB params = true) :
    onConnectStart L params s =
      ({ edges := L.addEdge params s.edges, isProcessing := true,
         useLLMState := s.useLLMState, sessionId := s.sessionId },
        [.fetch (processPdfsRequest s.sessionId)]) := by
  simp [onConnectStart, h1]

theorem onConnect_of_pdfVectorDB (L : FlowLib) (net : Request → FetchOutcome)
    (params : Connection) (s : AppState) (h1 : connectsPdfVectorDB params = true) :
    requestsOf (onConnect L net params s).2 = [processPdfsRequest s.sessionId] ∧
      (onConnect L net params s).1.isProcessing = false := by
  have hrun : onConnect L net params s =
      ((onConnectSettle s.sessionId (net (processPdfsRequest s.sessionId))
          { edges := L.addEdge params s.edges, isProcessing := true,
            useLLMState := s.useLLMState, sessionId := s.sessionId }).1,
        [.fetch (processPdfsRequest s.sessionId)] ++
          (onConnectSettle s.sessionId (net (processPdfsRequest s.sessionId))
            { edges := L.addEdge params s.edges, isProcessing := true,
              useLLMState := s.useLLMState, sessionId := s.sessionId }).2) := by
    simp [onConnect, onConnectStart_of_pdfVectorDB L params s h1, requestsOf]
  rw [hrun]
  refine ⟨?_, isProcessing_onConnectSettle _ _ _⟩
  rw [requestsOf_append, requestsOf_onConnectSettle]
  simp [requestsOf]

theorem onConnect_of_other (L : FlowLib) (net : Request → FetchOutcome)
    (params : Connection) (s : AppState) (h1 : ¬ connectsPdfVectorDB params = true) :
    requestsOf (onConnect L net params s).2 = [] ∧
      (onConnect L net params s).1.isProcessing = s.isProcessing := by
  by_cases h2 : connectsVectorDBLLM params = true
  · simp [onConnect, onConnectStart, h1, h2, requestsOf]
  · simp [onConnect, onConnectStart, h1, h2, requestsOf]

/-- A turn that is not a settling leaves a raised processing flag raised. -/
theorem step_keeps_processing (L : FlowLib) (σ : Sys) (ev : Event)
    (hev : ev.isSettle = false) (h : σ.app.isProcessing = true) :
    (step L σ ev).app.isProcessing = true := by
  cases ev with
  | connect params =>
    by_cases h1 : connectsPdfVectorDB params = true
    · simp [step, onConnectStart, h1]
    · by_cases h2 : connectsVectorDBLLM params = true
      · simp [step, onConnectStart, h1, h2, h]
      · simp [step, onConnectStart, h1, h2, h]
  | edgesChange changes => simpa [step, onEdgesChangeHandler] using h
  | uploadSuccess sid => simpa [step, handleUploadSuccess] using h
  | settle i o => simp [Event.isSettle] at hev

theorem run_keeps_processing (L : FlowLib) (evs : List Event) (σ : Sys)
    (hevs : ∀ ev ∈ evs, ev.isSettle = false) (h : σ.app.isProcessing = true) :
    (run L σ evs).app.isProcessing = true := by
  induction evs generalizing σ with
  | nil => simpa [run] using h
  | cons ev evs ih =>
    have hstep := step_keeps_processing L σ ev (hevs ev (List.mem_cons_self _ _)) h
    have := ih (step L σ ev) (fun e he => hevs e (List.mem_cons_of_mem _ he)) hstep
    simpa [run] using this

/-! ## C7 -/

/-- C7 fails as stated: two connections of `pdf` and `vectorDB` are drawn one
after the other, and the second request settles first.  After the two connects
two requests are in flight and the flag is true; after the settling of the
second one the first is still in flight and the flag is false. -/
theorem processing_flag_drops_while_in_flight :
    (run specFlowLib initialSys
        [.connect ⟨"pdf", "vectorDB", none, none⟩,
          .connect ⟨"vectorDB", "pdf", none, none⟩]).inFlight = [none, none] ∧
      (run specFlowLib initialSys
        [.connect ⟨"pdf", "vectorDB", none, none⟩,
          .connect ⟨"vectorDB", "pdf", none, none⟩]).app.isProcessing = true ∧
      (run specFlowLib initialSys
        [.connect ⟨"pdf", "vectorDB", none, none⟩,
          .connect ⟨"vectorDB", "pdf", none, none⟩,
          .settle 1 (.response true (.ok ⟨none, some "ok", none, none⟩))]).inFlight = [none] ∧
      (run specFlowLib initialSys
        [.connect ⟨"pdf", "vectorDB", none, none⟩,
          .connect ⟨"vectorDB", "pdf", none, none⟩,
          .settle 1 (.response true (.ok ⟨none, some "ok", none, none⟩))]).app.isProcessing
        = false := by
  decide

/-- C7, amended: for every `onConnect` joining `pdf` and `vectorDB` in either
order, exactly one request is issued, the POST to `/process_pdfs` with the
session id current at that moment; the processing flag is true right after the
connect and stays true through every later event that is not the settling of an
embedding request (of this one or of another one in flight); whenever an
embedding request settles, the flag is false right after, whatever the outcome,
and no further request is issued.  For every `onConnect` with another endpoint
pair no request is issued and the flag is unchanged. -/
theorem embedding_request_and_processing_flag (L : FlowLib) (σ : Sys) (params : Connection) :
    (connects "pdf" "vectorDB" params →
      requestsOf (onConnectStart L params σ.app).2 =
          [⟨"http://localhost:8000/process_pdfs", "POST", .processPdfs σ.app.sessionId⟩] ∧
        (∀ net : Request → FetchOutcome,
          requestsOf (onConnect L net params σ.app).2 =
              [⟨"http://localhost:8000/process_pdfs", "POST", .processPdfs σ.app.sessionId⟩] ∧
            (onConnect L net params σ.app).1.isProcessing = false) ∧
        (step L σ (.connect params)).inFlight = σ.inFlight ++ [σ.app.sessionId] ∧
        (∀ evs : List Event, (∀ ev ∈ evs, ev.isSettle = false) →
          (run L (step L σ (.connect params)) evs).app.isProcessing = true)) ∧
    (∀ (i : Nat) (sid : Option String) (o : FetchOutcome), σ.inFlight.get? i = some sid →
      (step L σ (.settle i o)).app.isProcessing = false ∧
        (step L σ (.settle i o)).inFlight = σ.inFlight.eraseIdx i ∧
        requestsOf (onConnectSettle sid o σ.app).2 = []) ∧
    (¬ connects "pdf" "vectorDB" params →
      (∀ net : Request → FetchOutcome,
        requestsOf (onConnect L net params σ.app).2 = [] ∧
          (onConnect L net params σ.app).1.isProcessing = σ.app.isProcessing) ∧
        (step L σ (.connect params)).inFlight = σ.inFlight ∧
        (step L σ (.connect params)).app.isProcessing = σ.app.isProcessing) := by
  refine ⟨fun hc => ?_, fun i sid o hi => ?_, fun hc => ?_⟩
  · have h1 : connectsPdfVectorDB params = true := (connectsPdfVectorDB_iff params).mpr hc
    have hstart := onConnectStart_of_pdfVectorDB L params σ.app h1
    refine ⟨by simp [hstart, requestsOf, processPdfsRequest], fun net => ?_, ?_, fun evs hevs => ?_⟩
    · simpa [processPdfsRequest] using onConnect_of_pdfVectorDB L net params σ.app h1
    · simp [step, hstart, requestsOf]
    · apply run_keeps_processing L evs _ hevs
      simp [step, hstart]
  · have hi2 : σ.inFlight[i]? = some sid := by simpa using hi
    refine ⟨?_, ?_, requestsOf_onConnectSettle sid o σ.app⟩
    · simp [step, hi2, isProcessing_onConnectSettle]
    · simp [step, hi2]
  · have h1 : ¬ connectsPdfVectorDB params = true :=
      fun h => hc ((connectsPdfVectorDB_iff params).mp h)
    refine ⟨fun net => onConnect_of_other L net params σ.app h1, ?_, ?_⟩
    · by_cases h2 : connectsVectorDBLLM params = true <;>
        simp [step, onConnectStart, h1, h2, requestsOf]
    · by_cases h2 : connectsVectorDBLLM params = true <;>
        simp [step, onConnectStart, h1, h2, requestsOf]

/-- An instance of the amended C7: on the freshly mounted `App`, `pdf →
vectorDB` is connected, then `vectorDB → llm`, then the `vectorDB → llm` edge is
selected: the flag is still true. -/
theorem embedding_request_and_processing_flag_witness :
    (run specFlowLib (step specFlowLib initialSys (.connect ⟨"pdf", "vectorDB", none, none⟩))
      [.connect ⟨"vectorDB", "llm", none, none⟩,
        .edgesChange [.select "vectorDB-llm" true]]).app.isProcessing = true :=
  ((embedding_request_and_processing_flag specFlowLib initialSys
      ⟨"pdf", "vectorDB", none, none⟩).1 (by decide)).2.2.2
    [.connect ⟨"vectorDB", "llm", none, none⟩, .edgesChange [.select "vectorDB-llm" true]]
    (by
      intro ev hev
      simp only [List.mem_cons, List.mem_singleton, List.not_mem_nil, or_false] at hev
      rcases hev with rfl | rfl <;> rfl)

/-! ## C8 -/

/-- C8 fails as stated: when the embedding request of `pdf → vectorDB` is
rejected with the transport error `Failed to fetch`, there is no response and no
`detail`, and the alert is `Error: Failed to fetch`, not the one built from the
default of the call, `Error: Failed to create embeddings`. -/
theorem transport_error_shows_thrown_message :
    alertsOf (onConnect specFlowLib (fun _ => .threw "Failed to fetch")
        ⟨"pdf", "vectorDB", none, none⟩ initialSys.app).2 = ["Error: Failed to fetch"] ∧
      specFailureText "Failed to create embeddings" (.threw "Failed to fetch") =
        "Failed to create embeddings" ∧
      alertsOf (onConnect specFlowLib (fun _ => .threw "Failed to fetch")
        ⟨"pdf", "vectorDB", none, none⟩ initialSys.app).2 ≠
        ["Error: " ++ specFailureText "Failed to create embeddings" (.threw "Failed to fetch")] := by
  decide

/-- C8, amended: for each of the three calls every failed request is caught and
a message is shown: the alert `Error: …` for the embedding request, the alert
`Failed to upload PDFs: …` for the upload, the bot message `Error: …` for the
query.  For a non-2xx response with a JSON body the text is the `detail` field
if it is present and not empty, and otherwise the default of the call (`Failed
to create embeddings`, `Upload failed`, `Query failed`); for a thrown transport
error it is the message of the thrown error, and for a response whose body does
not parse it is the message of the parse error.  A 500 response with `{detail:
'parse failed'}` to the embedding request gives the alert `Error: parse
failed`. -/
theorem failure_message_shown (sid : Option String) (s : AppState) (data : NodeData)
    (ust : UploadState) (cst : ChatState) :
    (∀ body : ResponseBody,
      alertsOf (onConnectSettle sid (.response false (.ok body)) s).2 =
          ["Error: " ++ jsOr body.detail "Failed to create embeddings"] ∧
        alertsOf (handleUploadSettle data (.response false (.ok body)) ust).2 =
          ["Failed to upload PDFs: " ++ jsOr body.detail "Upload failed"] ∧
        (handleSendSettle (.response false (.ok body)) cst).1.messages =
          cst.messages ++ [⟨some ("Error: " ++ jsOr body.detail "Query failed"), "bot"⟩]) ∧
    (∀ d default : String, d ≠ "" → jsOr (some d) default = d) ∧
    (∀ default : String, jsOr none default = default ∧ jsOr (some "") default = default) ∧
    (∀ m : String,
      alertsOf (onConnectSettle sid (.threw m) s).2 = ["Error: " ++ m] ∧
        alertsOf (handleUploadSettle data (.threw m) ust).2 = ["Failed to upload PDFs: " ++ m] ∧
        (handleSendSettle (.threw m) cst).1.messages =
          cst.messages ++ [⟨some ("Error: " ++ m), "bot"⟩]) ∧
    (∀ (ok : Bool) (m : String),
      alertsOf (onConnectSettle sid (.response ok (.error m)) s).2 = ["Error: " ++ m] ∧
        alertsOf (handleUploadSettle data (.response ok (.error m)) ust).2 =
          ["Failed to upload PDFs: " ++ m] ∧
        (handleSendSettle (.response ok (.error m)) cst).1.messages =
          cst.messages ++ [⟨some ("Error: " ++ m), "bot"⟩]) ∧
    alertsOf (onConnectSettle sid
        (.response false (.ok ⟨some "parse failed", none, none, none⟩)) s).2 =
      ["Error: parse failed"] := by
  refine ⟨fun body => ?_, fun d default hd => ?_, fun default => ?_, fun m => ?_,
    fun ok m => ?_, ?_⟩
  · simp [onConnectSettle, onConnectCatch, handleUploadSettle, handleUploadCatch,
      handleSendSettle, handleSendCatch, alertsOf]
  · simp [jsOr, hd]
  · simp [jsOr]
  · simp [onConnectSettle, onConnectCatch, handleUploadSettle, handleUploadCatch,
      handleSendSettle, handleSendCatch, alertsOf]
  · cases ok <;>
      simp [onConnectSettle, onConnectCatch, handleUploadSettle, handleUploadCatch,
        handleSendSettle, handleSendCatch, alertsOf]
  · simp only [onConnectSettle, onConnectCatch, alertsOf, jsOr]
    decide

/-- An instance of the amended C8: the `detail` text `parse failed` is not
empty, so it is the text that is shown. -/
theorem failure_message_shown_witness :
    jsOr (some "parse failed") "Failed to create embeddings" = "parse failed" :=
  (failure_message_shown none initialSys.app pdfNodeData ⟨[], false⟩ ⟨[], ""⟩).2.1
    "parse failed" "Failed to create embeddings" (by decide)

/-! ## Lemmas on `handleUpload` -/

/-- The guard of line 33 at work on a body outside the interface: the upload of
`a.pdf` is answered 2xx with `{message: 'ok'}`, which has no `session_id`.  The
selection is cleared and the uploading flag is false, and the upload-success
callback is not called, so the session id of the `App` stays null. -/
theorem upload_success_without_session_id :
    uploadSucceeded (.response true (.ok ⟨none, some "ok", none, none⟩)) ∧
      (handleUpload (fun _ => .response true (.ok ⟨none, some "ok", none, none⟩)) pdfNodeData
        ⟨["a.pdf"], false⟩).1 = ⟨[], false⟩ ∧
      callbacksOf (handleUpload (fun _ => .response true (.ok ⟨none, some "ok", none, none⟩))
        pdfNodeData ⟨["a.pdf"], false⟩).2 = [] ∧
      (afterCallbacks (handleUpload (fun _ => .response true (.ok ⟨none, some "ok", none, none⟩))
        pdfNodeData ⟨["a.pdf"], false⟩).2 initialSys.app).sessionId = none :=
  ⟨⟨_, rfl⟩, by decide, by decide, by decide⟩

/-- The cases of `handleUpload` with the callback `App` injects into the pdf
node: the empty selection, the request with its flag, a 2xx response with and
without a session identifier, and a failure. -/
theorem handleUpload_cases (net : Request → FetchOutcome) (st : UploadState) (app : AppState) :
    (st.files = [] →
      handleUpload net pdfNodeData st = (st, [.alert "Please select at least one PDF file"]) ∧
        requestsOf (handleUpload net pdfNodeData st).2 = []) ∧
    (st.files ≠ [] →
      requestsOf (handleUpload net pdfNodeData st).2 =
          [⟨"http://localhost:8000/upload_pdfs", "POST", .formData st.files⟩] ∧
        (handleUpload net pdfNodeData st).1.uploading = false ∧
        (∀ result : ResponseBody,
          net ⟨"http://localhost:8000/upload_pdfs", "POST", .formData st.files⟩ =
            .response true (.ok result) →
          (handleUpload net pdfNodeData st).1.files = [] ∧
            (∀ sid : String, result.session_id = some sid → sid ≠ "" →
              callbacksOf (handleUpload net pdfNodeData st).2 = [sid] ∧
                (afterCallbacks (handleUpload net pdfNodeData st).2 app).sessionId = some sid) ∧
            ((result.session_id = none ∨ result.session_id = some "") →
              callbacksOf (handleUpload net pdfNodeData st).2 = [] ∧
                afterCallbacks (handleUpload net pdfNodeData st).2 app = app)) ∧
        (¬ uploadSucceeded (net ⟨"http://localhost:8000/upload_pdfs", "POST", .formData st.files⟩) →
          callbacksOf (handleUpload net pdfNodeData st).2 = [] ∧
            (handleUpload net pdfNodeData st).1.files = st.files)) ∧
    (st.uploading = false → (handleUpload net pdfNodeData st).1.uploading = false) := by
  have hempty : st.files = [] →
      handleUpload net pdfNodeData st = (st, [.alert "Please select at least one PDF file"]) := by
    intro h
    simp [handleUpload, handleUploadStart, h, requestsOf]
  have hrun : st.files ≠ [] → handleUpload net pdfNodeData st =
      ((handleUploadSettle pdfNodeData
          (net ⟨"http://localhost:8000/upload_pdfs", "POST", .formData st.files⟩)
          ⟨st.files, true⟩).1,
        [.fetch ⟨"http://localhost:8000/upload_pdfs", "POST", .formData st.files⟩] ++
          (handleUploadSettle pdfNodeData
            (net ⟨"http://localhost:8000/upload_pdfs", "POST", .formData st.files⟩)
            ⟨st.files, true⟩).2) := by
    intro h
    simp [handleUpload, handleUploadStart, h, requestsOf, uploadRequest]
  refine ⟨fun h => ⟨hempty h, by simp [hempty h, requestsOf]⟩, fun h => ?_, fun hu => ?_⟩
  · rw [hrun h]
    generalize net ⟨"http://localhost:8000/upload_pdfs", "POST", .formData st.files⟩ = o
    rcases o with m | ⟨ok, (m | body)⟩
    · simp [handleUploadSettle, handleUploadCatch, requestsOf, callbacksOf, uploadSucceeded]
    · cases ok <;>
        simp [handleUploadSettle, handleUploadCatch, requestsOf, callbacksOf, uploadSucceeded]
    · cases ok
      · simp [handleUploadSettle, handleUploadCatch, requestsOf, callbacksOf, uploadSucceeded]
      · refine ⟨?_, by simp [handleUploadSettle], fun result hres => ?_, fun hns => ?_⟩
        · rcases hsid : body.session_id with _ | sid
          · simp [handleUploadSettle, requestsOf, hsid]
          · by_cases hne : sid = "" <;>
              simp [handleUploadSettle, requestsOf, hsid, hne, pdfNodeData]
        · have hb : body = result := by
            injection hres with _ h2
            injection h2
          subst hb
          refine ⟨by simp [handleUploadSettle], fun sid hsid hne => ?_, fun hnone => ?_⟩
          · simp [handleUploadSettle, callbacksOf, afterCallbacks, handleUploadSuccess, hsid, hne,
              pdfNodeData]
          · rcases hnone with hnone | hnone <;>
              simp [handleUploadSettle, callbacksOf, afterCallbacks, hnone]
        · exact absurd ⟨body, rfl⟩ hns
  · by_cases h : st.files = []
    · rw [hempty h]
      exact hu
    · rw [hrun h]
      simp [handleUploadSettle]

/-! ## C9 -/

/-- C9: for every file selection, with `handleUpload` started while the Upload
button is enabled (the uploading flag is false), after `handleUpload` completes
the uploading flag is false.  If the selection was empty no request was made and
the selection is unchanged.  Otherwise the one upload request with the selected
files was made; if the upload succeeded, with the success body of the interface
holding the session identifier `sid`, the upload-success callback was called
with `sid`, once, so the session id stored in the `App` is `sid`, and the
selection is empty; if the upload failed (a non-2xx response, a thrown error or
a body that does not parse) the callback was not called and the selection is
unchanged. -/
theorem upload_completes (net : Request → FetchOutcome) (st : UploadState) (app : AppState)
    (hu : st.uploading = false) :
    (handleUpload net pdfNodeData st).1.uploading = false ∧
    (st.files = [] →
      requestsOf (handleUpload net pdfNodeData st).2 = [] ∧
        (handleUpload net pdfNodeData st).1.files = st.files) ∧
    (st.files ≠ [] →
      requestsOf (handleUpload net pdfNodeData st).2 =
        [⟨"http://localhost:8000/upload_pdfs", "POST", .formData st.files⟩]) ∧
    (∀ sid : String, st.files ≠ [] →
      uploadSucceededWith sid
        (net ⟨"http://localhost:8000/upload_pdfs", "POST", .formData st.files⟩) →
      callbacksOf (handleUpload net pdfNodeData st).2 = [sid] ∧
        (afterCallbacks (handleUpload net pdfNodeData st).2 app).sessionId = some sid ∧
        (handleUpload net pdfNodeData st).1.files = []) ∧
    (st.files ≠ [] →
      ¬ uploadSucceeded (net ⟨"http://localhost:8000/upload_pdfs", "POST", .formData st.files⟩) →
      callbacksOf (handleUpload net pdfNodeData st).2 = [] ∧
        (handleUpload net pdfNodeData st).1.files = st.files) := by
  obtain ⟨hempty, hfull, hflag⟩ := handleUpload_cases net st app
  refine ⟨hflag hu, fun h => ?_, fun h => (hfull h).1, fun sid h hs => ?_,
    fun h hf => (hfull h).2.2.2 hf⟩
  · refine ⟨(hempty h).2, ?_⟩
    rw [(hempty h).1]
  · obtain ⟨result, hres, hsid, hne⟩ := hs
    obtain ⟨hfiles, hcall, _⟩ := (hfull h).2.2.1 result hres
    exact ⟨(hcall sid hsid hne).1, (hcall sid hsid hne).2, hfiles⟩

/-- An instance of C9: the scenario of the specification, two files uploaded
and answered with `{message: 'ok', session_id: 'S1'}`. -/
theorem upload_completes_witness :
    (handleUpload (fun _ => .response true (.ok ⟨none, some "ok", some "S1", none⟩)) pdfNodeData
        ⟨["a.pdf", "b.pdf"], false⟩).1.uploading = false ∧
      (callbacksOf (handleUpload (fun _ => .response true (.ok ⟨none, some "ok", some "S1", none⟩))
          pdfNodeData ⟨["a.pdf", "b.pdf"], false⟩).2 = ["S1"] ∧
        (afterCallbacks (handleUpload (fun _ => .response true (.ok ⟨none, some "ok", some "S1", none⟩))
          pdfNodeData ⟨["a.pdf", "b.pdf"], false⟩).2 initialSys.app).sessionId = some "S1" ∧
        (handleUpload (fun _ => .response true (.ok ⟨none, some "ok", some "S1", none⟩)) pdfNodeData
          ⟨["a.pdf", "b.pdf"], false⟩).1.files = []) :=
  ⟨(upload_completes (fun _ => .response true (.ok ⟨none, some "ok", some "S1", none⟩))
      ⟨["a.pdf", "b.pdf"], false⟩ initialSys.app rfl).1,
    (upload_completes (fun _ => .response true (.ok ⟨none, some "ok", some "S1", none⟩))
      ⟨["a.pdf", "b.pdf"], false⟩ initialSys.app rfl).2.2.2.1 "S1" (by decide)
      ⟨⟨none, some "ok", some "S1", none⟩, rfl, rfl, by decide⟩⟩

/-! ## C10 -/

/-- C10 fails as stated: with the session id `S1` stored in the `App` and the
latch set, sending `hello` issues the request with body `{query: 'hello',
useVectorDB: false, useLLM: true}`, which carries no session identifier; the
very same request is issued when the stored session id is `S2`. -/
theorem query_request_without_session_id :
    requestsOf (handleSend (fun _ => .threw "") (chatbotProps ⟨[], false, true, some "S1"⟩)
        ⟨[], "hello"⟩).2 =
      [⟨"http://localhost:8000/query", "POST", .query "hello" false true⟩] ∧
    (requestsOf (handleSend (fun _ => .threw "") (chatbotProps ⟨[], false, true, some "S1"⟩)
        ⟨[], "hello"⟩).2).map sessionIdOf = [none] ∧
    requestsOf (handleSend (fun _ => .threw "") (chatbotProps ⟨[], false, true, some "S2"⟩)
        ⟨[], "hello"⟩).2 =
      requestsOf (handleSend (fun _ => .threw "") (chatbotProps ⟨[], false, true, some "S1"⟩)
        ⟨[], "hello"⟩).2 := by
  decide

/-- C10, amended: every embedding request issued by `onConnect` carries, as the
`session_id` of its body, the session identifier stored in the `App` when the
request is issued.  A query request issued by `handleSend` of the `Chatbot`
carries the input and the two flags `useVectorDB` and `useLLM` of the `App` and
no session identifier: it is the same request whatever session id is stored. -/
theorem session_id_in_embedding_request_only (L : FlowLib) (net : Request → FetchOutcome)
    (s : AppState) (params : Connection) (st : ChatState) :
    (∀ req ∈ requestsOf (onConnect L net params s).2,
      req.body = .processPdfs s.sessionId ∧ sessionIdOf req = some s.sessionId) ∧
    (∀ req ∈ requestsOf (handleSend net (chatbotProps s) st).2,
      req.body = .query st.input (useVectorDB s) (useLLM s) ∧ sessionIdOf req = none) ∧
    (∀ sid : Option String,
      requestsOf (handleSend net (chatbotProps { s with sessionId := sid }) st).2 =
        requestsOf (handleSend net (chatbotProps s) st).2) := by
  refine ⟨?_, ?_, fun sid => rfl⟩
  · intro req hreq
    by_cases h1 : connectsPdfVectorDB params = true
    · rw [(onConnect_of_pdfVectorDB L net params s h1).1] at hreq
      simp only [List.mem_singleton] at hreq
      subst hreq
      simp [sessionIdOf, processPdfsRequest]
    · rw [(onConnect_of_other L net params s h1).1] at hreq
      simp at hreq
  · intro req hreq
    by_cases ht : jsTrim st.input = ""
    · simp [handleSend, handleSendStart, ht, requestsOf] at hreq
    · by_cases hl : (chatbotProps s).useLLM = true
      · have hrun : requestsOf (handleSend net (chatbotProps s) st).2 =
            [queryRequest st.input (chatbotProps s)] := by
          have h2 := requestsOf_handleSendSettle
            (net (queryRequest st.input (chatbotProps s)))
            ⟨st.messages ++ [⟨some st.input, "user"⟩], ""⟩
          simp only [handleSend, handleSendStart, ht, hl, requestsOf, if_false, Bool.not_true,
            List.filterMap_cons, List.filterMap_nil, Bool.false_eq_true]
          simp only [requestsOf] at h2
          simp [List.filterMap_append, h2]
        rw [hrun] at hreq
        simp only [List.mem_singleton] at hreq
        subst hreq
        simp [queryRequest, sessionIdOf, chatbotProps]
      · simp [handleSend, handleSendStart, ht, hl, requestsOf] at hreq

/-- An instance of the amended C10: `pdf → vectorDB` connected while the stored
session id is `S1`. -/
theorem session_id_in_embedding_request_only_witness :
    (⟨"http://localhost:8000/process_pdfs", "POST", .processPdfs (some "S1")⟩ : Request).body =
        .processPdfs (some "S1") ∧
      sessionIdOf ⟨"http://localhost:8000/process_pdfs", "POST", .processPdfs (some "S1")⟩ =
        some (some "S1") :=
  (session_id_in_embedding_request_only specFlowLib (fun _ => .threw "")
    ⟨[], false, false, some "S1"⟩ ⟨"pdf", "vectorDB", none, none⟩ ⟨[], ""⟩).1
    ⟨"http://localhost:8000/process_pdfs", "POST", .processPdfs (some "S1")⟩ (by decide)

end Finalbot
